import Mathlib

/-!
Verification development for the nanoSmart repository.

Two components are embedded here, straight from the source:

* the Vue-side schema normalizer `transformDeviceData`
  (webui/src/composables/useSmartMonitor.js), modelled over a small
  JavaScript value domain `JsVal`;
* the collector shell script `smart_monitor.sh` (device classification
  `is_disk_device`, index construction `create_index`, the scan loop
  `scan_devices` and the process exit code), modelled as pure functions
  over the inputs the script observes (block-device existence, `lsblk`
  output, per-device probe success).
-/

namespace NanoSmart

/-- JavaScript runtime values, as needed by `transformDeviceData`.
`undefined` is the JavaScript undefined value (absent property), `null` is the JSON
null, `nan` the not-a-number value produced by failed numeric coercion.
Numbers are restricted to integers: every numeric field the normalizer
touches is an integer in the smartctl JSON schema. -/
inductive JsVal where
  | undefined
  | null
  | nan
  | bool (b : Bool)
  | num (n : Int)
  | str (s : String)
  | arr (elems : List JsVal)
  | obj (fields : List (String × JsVal))
deriving Repr

/-- JavaScript truthiness: `undefined`, `null`, `NaN`, `false`, `0` and
`""` are falsy, everything else is truthy. -/
def JsVal.truthy : JsVal → Bool
  | .undefined => false
  | .null => false
  | .nan => false
  | .bool b => b
  | .num n => n != 0
  | .str s => s != ""
  | .arr _ => true
  | .obj _ => true

/-- First binding of a key in an association list (JSON objects parsed by
`JSON.parse` have unique keys, so first = only). -/
def lookupField (fields : List (String × JsVal)) (k : String) : Option JsVal :=
  match fields with
  | [] => none
  | (k', v) :: rest => if k' = k then some v else lookupField rest k

/-- Property access `v[k]`, returning `undefined` when the property is
absent.  On primitives (numbers, booleans, `NaN`) JavaScript property
access yields `undefined`; access on `null`/`undefined` would throw, but
every access site in the normalizer is guarded (`|| {}`, `?.` or a
truthiness test), so the total model is faithful on all reachable
inputs.  Array `length` and string index properties are not modelled;
no code under scrutiny reads them. -/
def JsVal.get : JsVal → String → JsVal
  | .obj fields, k =>
    match lookupField fields k with
    | some v => v
    | none => .undefined
  | .arr elems, k =>
    match k.toNat? with
    | some i => (elems.get? i).getD .undefined
    | none => .undefined
  | _, _ => .undefined

/-- Fold a digit list to the natural number it denotes. -/
def digitsToNat (ds : List Char) : Nat :=
  ds.foldl (fun a c => a * 10 + (c.toNat - 48)) 0

/-- JavaScript `Number("...")` restricted to (signed) decimal integer
literals: surrounding whitespace allowed, empty string is `0`, anything
non-integral is `NaN` (`none`).  Fractional, exponent and hex literals
are outside the data domain of this program and are not modelled. -/
def strToNumber (s : String) : Option Int :=
  let cs := ((s.toList.dropWhile (·.isWhitespace)).reverse.dropWhile (·.isWhitespace)).reverse
  match cs with
  | [] => some 0
  | '-' :: ds => if !ds.isEmpty && ds.all (·.isDigit) then some (-(digitsToNat ds : Int)) else none
  | '+' :: ds => if !ds.isEmpty && ds.all (·.isDigit) then some ((digitsToNat ds : Int)) else none
  | ds => if ds.all (·.isDigit) then some ((digitsToNat ds : Int)) else none

/-- JavaScript `ToNumber`; `none` stands for `NaN`.  Arrays coerce via
their string form in JavaScript (`[] → 0`, `[n] → n`); that corner is
collapsed to `NaN` here — no reachable code path compares an array. -/
def JsVal.toNumber : JsVal → Option Int
  | .undefined => none
  | .null => some 0
  | .nan => none
  | .bool b => some (if b then 1 else 0)
  | .num n => some n
  | .str s => strToNumber s
  | .arr _ => none
  | .obj _ => none

/-- Lexicographic comparison of character lists by code point, the
JavaScript string ordering for the code points in play. -/
def charListLt : List Char → List Char → Bool
  | [], [] => false
  | [], _ :: _ => true
  | _ :: _, [] => false
  | a :: as, b :: bs => if a = b then charListLt as bs else decide (a.toNat < b.toNat)

/-- JavaScript `a < b`: string/string compares lexicographically,
anything else coerces both sides to numbers, and any `NaN` makes the
comparison false. -/
def jsLt (a b : JsVal) : Bool :=
  match a, b with
  | .str s1, .str s2 => charListLt s1.toList s2.toList
  | _, _ =>
    match a.toNumber, b.toNumber with
    | some x, some y => decide (x < y)
    | _, _ => false

/-- JavaScript `a > b` is the `<` comparison with the operands swapped. -/
def jsGt (a b : JsVal) : Bool := jsLt b a

/-- JavaScript `a < k` against a numeric literal. -/
def jsLtN (a : JsVal) (k : Int) : Bool := jsLt a (.num k)

/-- Strict equality `v === k` against a numeric literal. -/
def strictEqNum (v : JsVal) (k : Int) : Bool :=
  match v with
  | .num n => n == k
  | _ => false

/-- Strict equality `v === s` against a string literal. -/
def strictEqStr (v : JsVal) (s : String) : Bool :=
  match v with
  | .str t => t == s
  | _ => false

/-- JavaScript `a || b`. -/
def jsOr (a b : JsVal) : JsVal := if a.truthy then a else b

/-- JavaScript `v !== undefined`. -/
def isDefined (v : JsVal) : Bool :=
  match v with
  | .undefined => false
  | _ => true

/-- JavaScript `typeof v === 'object'` (`null` and arrays included). -/
def isObjectType (v : JsVal) : Bool :=
  match v with
  | .obj _ => true
  | .arr _ => true
  | .null => true
  | _ => false

/-- `v.toString()`: throws a `TypeError` (modelled as `Except.error ()`)
on `undefined` and `null`, renders every other value.  Array rendering
is shallow (nested arrays and objects inside an array are not recursed
into); no code path under scrutiny stringifies an array. -/
def JsVal.toStr : JsVal → Except Unit String
  | .undefined => .error ()
  | .null => .error ()
  | .nan => .ok "NaN"
  | .bool b => .ok (if b then "true" else "false")
  | .num n => .ok (toString n)
  | .str s => .ok s
  | .arr es => .ok (String.intercalate "," (es.map fun e =>
      match e with
      | .undefined => ""
      | .null => ""
      | .nan => "NaN"
      | .bool b => if b then "true" else "false"
      | .num n => toString n
      | .str s => s
      | .arr _ => ""
      | .obj _ => "[object Object]"))
  | .obj _ => .ok "[object Object]"

/-- JavaScript `String(v)` as used by `parseInt`'s argument coercion:
total (never throws), `undefined`/`null` render as words. -/
def jsValString : JsVal → String
  | .undefined => "undefined"
  | .null => "null"
  | .nan => "NaN"
  | .bool b => if b then "true" else "false"
  | .num n => toString n
  | .str s => s
  | .arr es => String.intercalate "," (es.map fun e =>
      match e with
      | .undefined => ""
      | .null => ""
      | .nan => "NaN"
      | .bool b => if b then "true" else "false"
      | .num n => toString n
      | .str s => s
      | .arr _ => ""
      | .obj _ => "[object Object]")
  | .obj _ => "[object Object]"

/-- JavaScript `parseInt(v)`: coerce to string, skip leading whitespace,
optional sign, then the longest leading digit run; no digits means `NaN`
(`none`). -/
def parseIntJs (v : JsVal) : Option Int :=
  let cs := (jsValString v).toList.dropWhile (·.isWhitespace)
  match cs with
  | '-' :: ds =>
    let digits := ds.takeWhile (·.isDigit)
    if digits.isEmpty then none else some (-(digitsToNat digits : Int))
  | '+' :: ds =>
    let digits := ds.takeWhile (·.isDigit)
    if digits.isEmpty then none else some ((digitsToNat digits : Int))
  | ds =>
    let digits := ds.takeWhile (·.isDigit)
    if digits.isEmpty then none else some ((digitsToNat digits : Int))

/-- `Object.entries(v)`: an object's own key/value pairs in property
order, an array's index/element pairs, a string's index/character pairs,
empty for every other value. -/
def jsEntries : JsVal → List (String × JsVal)
  | .obj fields => fields
  | .arr es => es.enum.map (fun p => (toString p.1, p.2))
  | .str s => s.toList.enum.map (fun p => (toString p.1, .str (String.mk [p.2])))
  | _ => []

/-- Remove the first occurrence of `pat` from a character list. -/
def removeFirstOcc (pat : List Char) : List Char → List Char
  | [] => []
  | c :: cs =>
    if pat.isPrefixOf (c :: cs) then (c :: cs).drop pat.length
    else c :: removeFirstOcc pat cs

/-- `v.replace('/dev/', '')`: removes the first occurrence of `/dev/`.
`.replace` on a non-string value throws a `TypeError`. -/
def jsReplaceDev (v : JsVal) : Except Unit String :=
  match v with
  | .str s => .ok (String.mk (removeFirstOcc "/dev/".toList s.toList))
  | _ => .error ()

/-- `v.toUpperCase()`: defined on strings, a `TypeError` on anything
else. -/
def jsToUpperCase (v : JsVal) : Except Unit String :=
  match v with
  | .str s => .ok s.toUpper
  | _ => .error ()

/-- `new Date(ts * 1000).toLocaleString()` is locale- and timezone-
dependent; it is modelled as an abstract, injective rendering of the
millisecond value.  `Invalid Date` covers a non-numeric timestamp.  No
claim inspects the rendered text. -/
def dateLocaleString (v : JsVal) : String :=
  match v.toNumber with
  | some n => "epoch-ms:" ++ toString (n * 1000)
  | none => "Invalid Date"

/-- `Math.round(n / d)` for an integer byte count and positive divisor,
as exact rational rounding (half rounds up, as `Math.round` does).
Double-precision rounding error on astronomically large byte counts is
not modelled. -/
def mathRoundDiv (n d : Int) : Int := (2 * n + d).fdiv (2 * d)

/-- `` `${Math.round(x / 1024**3)}GB` `` with JavaScript numeric
coercion of `x`. -/
def capacityString (v : JsVal) : String :=
  match v.toNumber with
  | some n => toString (mathRoundDiv n 1073741824) ++ "GB"
  | none => "NaNGB"

/-- One row of the UI-facing SMART attribute table.  The six data fields
carry whatever JavaScript values the normalizer put there (numbers in
the NVMe branch, arbitrary source values in the generic branch); the
status verdict is always a string literal. -/
structure SmartAttribute where
  id : JsVal
  name : JsVal
  value : JsVal
  worst : JsVal
  threshold : JsVal
  raw : JsVal
  status : String
deriving Repr

/-- One row of the UI-facing self-test log (`type` in the JavaScript
object is `testType` here). -/
structure SelfTestEntry where
  timestamp : JsVal
  testType : JsVal
  status : JsVal
  duration : JsVal
deriving Repr

/-- The canonical record `transformDeviceData` returns. -/
structure DeviceHealthRecord where
  id : String
  name : String
  model : JsVal
  serial : JsVal
  firmware : JsVal
  deviceType : JsVal
  size : String
  health : String
  powerOnHours : Int
  lastCheck : String
  smartAttributes : List SmartAttribute
  errorLog : List SmartAttribute
  selftestLog : List SelfTestEntry
deriving Repr

/-- The nine synthetic attributes of the NVMe branch
(useSmartMonitor.js lines 204–288).  Each raw rendering
`nvmeData.<field>.toString()` throws when the field is absent, hence
the `Except`. -/
def nvmeAttributes (nvmeData : JsVal) : Except Unit (List SmartAttribute) := do
  let cw := nvmeData.get "critical_warning"
  let temp := nvmeData.get "temperature"
  let spare := nvmeData.get "available_spare"
  let spareTh := nvmeData.get "available_spare_threshold"
  let pu := nvmeData.get "percentage_used"
  let poh := nvmeData.get "power_on_hours"
  let pc := nvmeData.get "power_cycles"
  let me := nvmeData.get "media_errors"
  let ne := nvmeData.get "num_err_log_entries"
  let us := nvmeData.get "unsafe_shutdowns"
  let cwRaw ← cw.toStr
  let tempRaw ← temp.toStr
  let spareRaw ← spare.toStr
  let puRaw ← pu.toStr
  let pohRaw ← poh.toStr
  let pcRaw ← pc.toStr
  let meRaw ← me.toStr
  let neRaw ← ne.toStr
  let usRaw ← us.toStr
  pure [
    { id := .str "critical_warning", name := .str "Critical Warning",
      value := .num (if strictEqNum cw 0 then 100 else 0),
      worst := .num (if strictEqNum cw 0 then 100 else 0),
      threshold := .num 0, raw := .str cwRaw,
      status := if strictEqNum cw 0 then "Good" else "Warning" },
    { id := .str "temperature", name := .str "Temperature",
      value := .num (if jsLtN temp 70 then 100 else 50),
      worst := .num (if jsLtN temp 70 then 100 else 50),
      threshold := .num 70, raw := .str tempRaw,
      status := if jsLtN temp 70 then "Good" else "Warning" },
    { id := .str "available_spare", name := .str "Available Spare",
      value := spare, worst := spare,
      threshold := spareTh, raw := .str spareRaw,
      status := if jsGt spare spareTh then "Good" else "Warning" },
    { id := .str "percentage_used", name := .str "Percentage Used",
      value := (match pu.toNumber with | some n => .num (100 - n) | none => .nan),
      worst := (match pu.toNumber with | some n => .num (100 - n) | none => .nan),
      threshold := .num 0, raw := .str puRaw,
      status := if jsLtN pu 80 then "Good" else "Warning" },
    { id := .str "power_on_hours", name := .str "Power-On Hours",
      value := .num (if jsLtN poh 8760 then 100 else 85),
      worst := .num (if jsLtN poh 8760 then 100 else 85),
      threshold := .num 0, raw := .str pohRaw,
      status := "Good" },
    { id := .str "power_cycles", name := .str "Power Cycles",
      value := .num (if jsLtN pc 1000 then 100 else 90),
      worst := .num (if jsLtN pc 1000 then 100 else 90),
      threshold := .num 0, raw := .str pcRaw,
      status := "Good" },
    { id := .str "media_errors", name := .str "Media Errors",
      value := .num (if strictEqNum me 0 then 100 else 0),
      worst := .num (if strictEqNum me 0 then 100 else 0),
      threshold := .num 0, raw := .str meRaw,
      status := if strictEqNum me 0 then "Good" else "Warning" },
    { id := .str "num_err_log_entries", name := .str "Error Log Entries",
      value := .num (if strictEqNum ne 0 then 100 else 50),
      worst := .num (if strictEqNum ne 0 then 100 else 50),
      threshold := .num 0, raw := .str neRaw,
      status := if strictEqNum ne 0 then "Good" else "Warning" },
    { id := .str "unsafe_shutdowns", name := .str "Unsafe Shutdowns",
      value := .num (if strictEqNum us 0 then 100 else 50),
      worst := .num (if strictEqNum us 0 then 100 else 50),
      threshold := .num 0, raw := .str usRaw,
      status := if strictEqNum us 0 then "Good" else "Warning" } ]

/-- Which `Object.entries(smartAttrs)` rows survive the generic-branch
filter: `attr && typeof attr === 'object' && attr.id`. -/
def attrEntryKept (attr : JsVal) : Bool :=
  attr.truthy && isObjectType attr && (attr.get "id").truthy

/-- Generic-branch row mapping (useSmartMonitor.js lines 293–301): note
the source reads `attr.threshold`, never `attr.thresh`, and passes
`attr.raw` through unchanged. -/
def genericAttr (key : String) (attr : JsVal) : SmartAttribute :=
  { id := jsOr (attr.get "id") (.str key),
    name := jsOr (attr.get "name") (.str key),
    value := jsOr (attr.get "value") (.num 0),
    worst := jsOr (attr.get "worst") (.num 0),
    threshold := jsOr (attr.get "threshold") (.num 0),
    raw := jsOr (attr.get "raw") (.str "0"),
    status :=
      if jsGt (jsOr (attr.get "value") (.num 0)) (jsOr (attr.get "threshold") (.num 0))
      then "Good" else "Warning" }

/-- The synthetic `smart_status` attribute appended for traditional
drives when `smartHealth.smart_status.passed` is defined. -/
def smartStatusAttr (smartHealth : JsVal) : SmartAttribute :=
  let passed := (smartHealth.get "smart_status").get "passed"
  { id := .str "smart_status", name := .str "SMART Status",
    value := .num (if passed.truthy then 100 else 0),
    worst := .num (if passed.truthy then 100 else 0),
    threshold := .num 0,
    raw := .str (if passed.truthy then "PASSED" else "FAILED"),
    status := if passed.truthy then "Good" else "Warning" }

/-- The appended tail of the generic attribute list: one synthetic
`smart_status` row when `passed` is defined, nothing otherwise. -/
def smartStatusExtra (smartHealth : JsVal) : List SmartAttribute :=
  if isDefined ((smartHealth.get "smart_status").get "passed")
  then [smartStatusAttr smartHealth] else []

/-- Which `Object.entries(smartSelftest)` rows survive the generic
self-test filter: `test && typeof test === 'object'`. -/
def testEntryKept (test : JsVal) : Bool :=
  test.truthy && isObjectType test

/-- Generic self-test row mapping (useSmartMonitor.js lines 333–338). -/
def genericTest (lastCheck : String) (key : String) (test : JsVal) : SelfTestEntry :=
  { timestamp := jsOr (test.get "timestamp") (.str lastCheck),
    testType := jsOr (test.get "type") (.str key),
    status := jsOr (test.get "status") (.str "Unknown"),
    duration := jsOr (test.get "duration") (.str "Unknown") }

/-- Health verdict (useSmartMonitor.js lines 174–182): explicit `passed`
boolean first, then the `overall_health` string, then a root-level
`smart_status.passed`, else `Unknown`. -/
def healthOf (smartHealth smartData : JsVal) : String :=
  if isDefined ((smartHealth.get "smart_status").get "passed") then
    if ((smartHealth.get "smart_status").get "passed").truthy then "Good" else "Warning"
  else if ((smartHealth.get "smart_status").get "overall_health").truthy then
    if strictEqStr ((smartHealth.get "smart_status").get "overall_health") "PASSED"
    then "Good" else "Warning"
  else if isDefined ((smartData.get "smart_status").get "passed") then
    if ((smartData.get "smart_status").get "passed").truthy then "Good" else "Warning"
  else "Unknown"

/-- Power-on hours extraction (useSmartMonitor.js lines 185–194). -/
def powerOnHoursOf (smartAttrs : JsVal) : Int :=
  if ((smartAttrs.get "Power_On_Hours").get "raw").truthy then
    (parseIntJs ((smartAttrs.get "Power_On_Hours").get "raw")).getD 0
  else if ((smartAttrs.get "9").get "raw").truthy then
    (parseIntJs ((smartAttrs.get "9").get "raw")).getD 0
  else if ((smartAttrs.get "power_on_time").get "hours").truthy then
    (parseIntJs ((smartAttrs.get "power_on_time").get "hours")).getD 0
  else if ((smartAttrs.get "nvme_smart_health_information_log").get "power_on_hours").truthy then
    (parseIntJs ((smartAttrs.get "nvme_smart_health_information_log").get "power_on_hours")).getD 0
  else 0

/-- The destructured `smart_data` member. -/
def smartDataOf (dd : JsVal) : JsVal := dd.get "smart_data"

/-- `const deviceInfo = smart_data.device_info || {}`. -/
def deviceInfoOf (dd : JsVal) : JsVal := jsOr ((smartDataOf dd).get "device_info") (.obj [])

/-- `const smartAttrs = smart_data.smart_attributes || {}`. -/
def smartAttrsOf (dd : JsVal) : JsVal := jsOr ((smartDataOf dd).get "smart_attributes") (.obj [])

/-- `const smartHealth = smart_data.smart_health || {}`. -/
def smartHealthOf (dd : JsVal) : JsVal := jsOr ((smartDataOf dd).get "smart_health") (.obj [])

/-- `const smartSelftest = smart_data.smart_selftest || {}`. -/
def smartSelftestOf (dd : JsVal) : JsVal := jsOr ((smartDataOf dd).get "smart_selftest") (.obj [])

/-- Model alias chain ending in the "Unknown Model" placeholder. -/
def modelOf (dd : JsVal) : JsVal :=
  jsOr (jsOr (jsOr ((deviceInfoOf dd).get "model_name") ((deviceInfoOf dd).get "Device_Model"))
    ((deviceInfoOf dd).get "Model_Family")) (.str "Unknown Model")

/-- Serial alias chain ending in the "Unknown Serial" placeholder. -/
def serialOf (dd : JsVal) : JsVal :=
  jsOr (jsOr ((deviceInfoOf dd).get "serial_number") ((deviceInfoOf dd).get "Serial_Number"))
    (.str "Unknown Serial")

/-- Firmware alias chain ending in the "Unknown Firmware" placeholder. -/
def firmwareOf (dd : JsVal) : JsVal :=
  jsOr (jsOr ((deviceInfoOf dd).get "firmware_version") ((deviceInfoOf dd).get "Firmware_Version"))
    (.str "Unknown Firmware")

/-- Device-type inference (lines 146–159): explicit `device.type`
(uppercased — a `TypeError` on a truthy non-string), else
`device.protocol` verbatim, else NVMe when the health log is present,
else "SATA/SCSI". -/
def deviceTypeOf (dd : JsVal) : Except Unit JsVal :=
  if (((deviceInfoOf dd).get "device").get "type").truthy then do
    let s ← jsToUpperCase (((deviceInfoOf dd).get "device").get "type")
    pure (JsVal.str s)
  else if (((deviceInfoOf dd).get "device").get "protocol").truthy then
    pure (((deviceInfoOf dd).get "device").get "protocol")
  else if ((smartAttrsOf dd).get "nvme_smart_health_information_log").truthy then
    pure (JsVal.str "NVMe")
  else
    pure (JsVal.str "SATA/SCSI")

/-- Capacity alias chain (lines 164–171), "Unknown Size" placeholder. -/
def sizeStrOf (dd : JsVal) : String :=
  if ((deviceInfoOf dd).get "nvme_total_capacity").truthy then
    capacityString ((deviceInfoOf dd).get "nvme_total_capacity")
  else if (((deviceInfoOf dd).get "user_capacity").get "bytes").truthy then
    capacityString (((deviceInfoOf dd).get "user_capacity").get "bytes")
  else if ((deviceInfoOf dd).get "User_Capacity_Bytes").truthy then
    capacityString ((deviceInfoOf dd).get "User_Capacity_Bytes")
  else "Unknown Size"

/-- The record's health verdict. -/
def healthFieldOf (dd : JsVal) : String := healthOf (smartHealthOf dd) (smartDataOf dd)

/-- The record's power-on hours. -/
def powerOnHoursFieldOf (dd : JsVal) : Int := powerOnHoursOf (smartAttrsOf dd)

/-- `deviceData.timestamp ? new Date(...).toLocaleString() : 'Unknown'`. -/
def lastCheckOf (dd : JsVal) : String :=
  if (dd.get "timestamp").truthy then dateLocaleString (dd.get "timestamp") else "Unknown"

/-- SMART attribute table (lines 201–315): the NVMe branch when the
health log is truthy, otherwise the generic `Object.entries` branch
with the synthetic `smart_status` row appended when defined. -/
def smartAttributesOf (dd : JsVal) : Except Unit (List SmartAttribute) :=
  if ((smartAttrsOf dd).get "nvme_smart_health_information_log").truthy then
    nvmeAttributes ((smartAttrsOf dd).get "nvme_smart_health_information_log")
  else
    pure (((jsEntries (smartAttrsOf dd)).filter (fun kv => attrEntryKept kv.2)).map
            (fun kv => genericAttr kv.1 kv.2)
          ++ smartStatusExtra (smartHealthOf dd))

/-- Self-test log (lines 318–339): one synthetic NVMe entry with the
constant status text, or the generic `Object.entries` mapping. -/
def selftestLogOf (dd : JsVal) : List SelfTestEntry :=
  if ((smartAttrsOf dd).get "nvme_smart_health_information_log").truthy then
    [ { timestamp := .str (lastCheckOf dd), testType := .str "NVMe Health Check",
        status := .str "Completed without error", duration := .str "N/A" } ]
  else
    ((jsEntries (smartSelftestOf dd)).filter (fun kv => testEntryKept kv.2)).map
      (fun kv => genericTest (lastCheckOf dd) kv.1 kv.2)

/-- `(deviceData.device || 'unknown').replace('/dev/', '')`. -/
def idNameOf (dd : JsVal) : Except Unit String :=
  jsReplaceDev (jsOr (dd.get "device") (.str "unknown"))

/-- `transformDeviceData` (useSmartMonitor.js lines 123–361).  The
JavaScript function returns `null` (here `Except.ok none`) when the
argument or its `smart_data` member is falsy, and can throw a
`TypeError` (here `Except.error ()`) at its `.toString()`,
`.toUpperCase()` and `.replace()` call sites.  The JavaScript consts
are split into the named helpers above, applied to the argument. -/
def transformDeviceData (deviceData : JsVal) : Except Unit (Option DeviceHealthRecord) :=
  if !deviceData.truthy || !(deviceData.get "smart_data").truthy then
    .ok none
  else do
    let deviceType ← deviceTypeOf deviceData
    let smartAttributes ← smartAttributesOf deviceData
    let idName ← idNameOf deviceData
    pure (some {
      id := idName, name := idName, model := modelOf deviceData,
      serial := serialOf deviceData, firmware := firmwareOf deviceData,
      deviceType := deviceType, size := sizeStrOf deviceData,
      health := healthFieldOf deviceData,
      powerOnHours := powerOnHoursFieldOf deviceData,
      lastCheck := lastCheckOf deviceData,
      smartAttributes := smartAttributes, errorLog := [],
      selftestLog := selftestLogOf deviceData })

/-! ## Collector script (smart_monitor.sh) -/

/-- `basename`: strip trailing slashes, then keep the last path
component; an all-slash path stays `/`. -/
def basename (p : String) : String :=
  let rcs := p.toList.reverse.dropWhile (· = '/')
  if rcs.isEmpty then (if p.isEmpty then "" else "/")
  else String.mk (rcs.takeWhile (· ≠ '/')).reverse

/-- `c` is an ASCII lowercase letter (`[a-z]`). -/
def isLowerAZ (c : Char) : Bool := 'a' ≤ c && c ≤ 'z'

/-- The bash regex `^[a-z]+[0-9]+$`: a nonempty lowercase-letter run
followed by a nonempty digit run and nothing else. -/
def matchLettersDigits (s : String) : Bool :=
  let cs := s.toList
  let letters := cs.takeWhile isLowerAZ
  let rest := cs.dropWhile isLowerAZ
  !letters.isEmpty && !rest.isEmpty && rest.all (·.isDigit)

/-- The bash regex `^nvme[0-9]+n[0-9]+$`. -/
def matchNvmeNs (s : String) : Bool :=
  match s.toList with
  | 'n' :: 'v' :: 'm' :: 'e' :: rest =>
    let ds := rest.takeWhile (·.isDigit)
    let r2 := rest.dropWhile (·.isDigit)
    !ds.isEmpty &&
      (match r2 with
       | 'n' :: r3 => !r3.isEmpty && r3.all (·.isDigit)
       | _ => false)
  | _ => false

/-- What the script can observe from `lsblk -d -no TYPE <device>`:
the tool may be absent, or report a type string (the script substitutes
`""` when the `lsblk` invocation itself fails). -/
inductive LsblkInfo where
  | unavailable
  | available (ty : String)
deriving Repr, DecidableEq

/-- `is_disk_device` (smart_monitor.sh lines 393–446): not a block
device → excluded; basename matching the partition regex and not the
NVMe-namespace regex → excluded; otherwise defer to `lsblk` when
present (`part` excludes, `disk` or an empty/undetermined type
includes, any other type excludes) and include when `lsblk` is
unavailable. -/
def is_disk_device (device : String) (isBlockDevice : Bool) (lsblk : LsblkInfo) : Bool :=
  if !isBlockDevice then false
  else
    let deviceName := basename device
    if matchLettersDigits deviceName && !matchNvmeNs deviceName then false
    else
      match lsblk with
      | .available ty =>
        if ty = "part" then false
        else if ty = "disk" || ty = "" then true
        else false
      | .unavailable => true

/-- The result the naming heuristic alone (regex stage, lines 404–413)
would give an existing block device: include unless the partition
pattern matches without the NVMe-namespace exception. -/
def heuristicIncludes (device : String) : Bool :=
  let deviceName := basename device
  !(matchLettersDigits deviceName && !matchNvmeNs deviceName)

/-- Bash `[[ string == pattern ]]` glob matching with `*` and `?`
(character classes are not used by this script's callers). -/
def globMatch (pat s : List Char) : Bool :=
  match pat, s with
  | [], rest => rest.isEmpty
  | '*' :: ps, rest => (rest.tails).any (fun t => globMatch ps t)
  | '?' :: ps, rest =>
    match rest with
    | [] => false
    | _ :: cs => globMatch ps cs
  | p :: ps, rest =>
    match rest with
    | [] => false
    | c :: cs => p = c && globMatch ps cs

/-- The exclude loop of `scan_devices` (lines 464–470): a device is
dropped when any exclude pattern glob-matches its full path. -/
def shouldExclude (excludePatterns : List String) (device : String) : Bool :=
  excludePatterns.any (fun pat => globMatch pat.toList device.toList)

/-- Device selection of `scan_devices` (lines 455–488): keep the
candidates, in order, that exist as block devices, pass
`is_disk_device`, and match no exclude pattern. -/
def classifyDevices (candidates : List String) (isBlockDevice : String → Bool)
    (lsblk : String → LsblkInfo) (excludePatterns : List String) : List String :=
  candidates.filter (fun d =>
    isBlockDevice d && is_disk_device d (isBlockDevice d) (lsblk d)
      && !shouldExclude excludePatterns d)

/-- `index.json` as written by `create_index` (lines 288–359). -/
structure IndexRecord where
  last_run : Int
  last_run_iso : String
  total_devices : Nat
  json_files : List String
deriving Repr, DecidableEq

/-- The per-device output file name `<basename>_smart.json`. -/
def jsonFileName (device : String) : String := basename device ++ "_smart.json"

/-- The script's `JSON_FORMAT` setting: `pretty` and `compact` use the
jq path of `create_index` (they differ only in whitespace), `basic` the
shell-loop path (also the fallback when jq is missing). -/
inductive JsonFormat where
  | basic
  | pretty
  | compact
deriving Repr, DecidableEq

/-- `create_index` (lines 288–359): the index lists one
`<basename>_smart.json` name per passed device, in order, with
`total_devices` the device count.  In the jq paths (`pretty`/`compact`)
an empty device list nevertheless yields `json_files = [""]`:
`printf '%s\n'` applied to an empty array emits one empty line, which
`jq -R . | jq -s .` slurps into a one-element array holding the empty
string.  The basic path's explicit loop emits an empty array. -/
def create_index (fmt : JsonFormat) (now : Int) (nowIso : String)
    (devices : List String) : IndexRecord :=
  { last_run := now, last_run_iso := nowIso,
    total_devices := devices.length,
    json_files :=
      match fmt with
      | .basic => devices.map jsonFileName
      | _ =>
        match devices with
        | [] => [""]
        | _ => devices.map jsonFileName }

/-- `process_device` (lines 362–390) succeeds iff the device is still a
block device at probe time; on success it writes the output file, on
failure it returns 1 without writing. -/
def process_device (accessibleAtProbe : Bool) : Bool := accessibleAtProbe

/-- Outcome of one `scan_devices` run: the function's return value (the
error count, wrapped modulo 256 by bash `return`) and the index it
wrote. -/
structure ScanResult where
  exitCode : Nat
  index : IndexRecord
deriving Repr, DecidableEq

/-- `scan_devices` (lines 449–546): classify, then (unless dry-run)
probe each kept device, counting failures; the index is rebuilt from
the full kept-device list either way, and the return value is the
failure count (0 in dry-run). -/
def scan_devices (candidates : List String) (isBlockDevice : String → Bool)
    (lsblk : String → LsblkInfo) (excludePatterns : List String)
    (fmt : JsonFormat) (dryRun : Bool) (accessibleAtProbe : String → Bool)
    (now : Int) (nowIso : String) : ScanResult :=
  let devices := classifyDevices candidates isBlockDevice lsblk excludePatterns
  if dryRun then
    { exitCode := 0, index := create_index fmt now nowIso devices }
  else
    let errorCount := (devices.filter (fun d => !process_device (accessibleAtProbe d))).length
    { exitCode := errorCount % 256, index := create_index fmt now nowIso devices }

/-- `check_dependencies` (lines 68–78): a missing `smartctl` aborts the
run with exit code 1 (a missing `jq` only downgrades the output format
and is not modelled). -/
def check_dependencies (smartctlAvailable : Bool) : Option Nat :=
  if !smartctlAvailable then some 1 else none

/-- `main` (lines 576–663) after argument/config handling: abort with
the dependency exit code when `smartctl` is missing, otherwise run
`scan_devices` and exit with its return value.  Result: the process
exit code, and the index written (none when the run aborted before
scanning). -/
def smart_monitor_main (smartctlAvailable : Bool) (candidates : List String)
    (isBlockDevice : String → Bool) (lsblk : String → LsblkInfo)
    (excludePatterns : List String) (fmt : JsonFormat) (dryRun : Bool)
    (accessibleAtProbe : String → Bool) (now : Int) (nowIso : String) :
    Nat × Option IndexRecord :=
  match check_dependencies smartctlAvailable with
  | some code => (code, none)
  | none =>
    let r := scan_devices candidates isBlockDevice lsblk excludePatterns fmt dryRun
      accessibleAtProbe now nowIso
    (r.exitCode, some r.index)

/-! ## Document builders and result projectors used by the claims -/

/-- A raw per-device document of the collector's output schema:
`{ device, timestamp, smart_data: { device_info, smart_attributes,
smart_health, smart_errors, smart_selftest } }`. -/
def mkRawDoc (device : String) (ts : Int)
    (deviceInfo smartAttrs smartHealth smartErrors smartSelftest : JsVal) : JsVal :=
  .obj [("device", .str device), ("timestamp", .num ts),
        ("smart_data", .obj [("device_info", deviceInfo), ("smart_attributes", smartAttrs),
                             ("smart_health", smartHealth), ("smart_errors", smartErrors),
                             ("smart_selftest", smartSelftest)])]

/-- An NVMe health-information log carrying the nine numeric fields the
normalizer reads, plus the spare threshold. -/
def mkNvmeLog (cw temp spare spareTh pu poh pc me ne us : Int) : JsVal :=
  .obj [("critical_warning", .num cw), ("temperature", .num temp), ("available_spare", .num spare),
        ("available_spare_threshold", .num spareTh), ("percentage_used", .num pu),
        ("power_on_hours", .num poh), ("power_cycles", .num pc), ("media_errors", .num me),
        ("num_err_log_entries", .num ne), ("unsafe_shutdowns", .num us)]

/-- A raw document whose SMART attributes consist of an NVMe
health-information log. -/
def mkNvmeDoc (device : String) (ts : Int) (log : JsVal) : JsVal :=
  mkRawDoc device ts (.obj []) (.obj [("nvme_smart_health_information_log", log)])
    (.obj []) (.obj []) (.obj [])

/-- A raw document with an NVMe health-information log that is an empty
object, i.e. all expected numeric fields absent. -/
def mkNvmeBadDoc (device : String) (ts : Int) : JsVal :=
  mkNvmeDoc device ts (.obj [])

/-- A raw document whose `smart_data` is an empty object: all five
sub-documents missing. -/
def mkEmptyDoc (device : String) (ts : Int) : JsVal :=
  .obj [("device", .str device), ("timestamp", .num ts), ("smart_data", .obj [])]

/-- A raw ATA/generic-shaped document: an attribute object, a self-test
object and a health object, with no NVMe log. -/
def mkGenericDoc (device : String) (ts : Int)
    (attrFields selftestFields : List (String × JsVal)) (smartHealth : JsVal) : JsVal :=
  mkRawDoc device ts (.obj []) (.obj attrFields) smartHealth (.obj []) (.obj selftestFields)

/-- A document with no `smart_data` member at all. -/
def docMissingSmartData : JsVal :=
  .obj [("device", .str "/dev/sda"), ("timestamp", .num 1700000000)]

/-- The spec's sample NVMe raw document (spec section 8): all counters
zero, temperature 45, spare 100 over threshold 10, 5 percent used. -/
def nvmeSampleDoc : JsVal :=
  mkNvmeDoc "/dev/nvme0n1" 1700000000 (mkNvmeLog 0 45 100 10 5 100 10 0 0 0)

/-- The spec's sample ATA attribute-table row:
`{id:5, name:"Reallocated_Sector_Ct", value:90, worst:90, thresh:10,
raw:{value:3}}`. -/
def ataSampleRow : JsVal :=
  .obj [("id", .num 5), ("name", .str "Reallocated_Sector_Ct"), ("value", .num 90),
        ("worst", .num 90), ("thresh", .num 10), ("raw", .obj [("value", .num 3)])]

/-- A raw document carrying the spec's sample ATA row under key "5". -/
def ataSampleDoc : JsVal :=
  mkGenericDoc "/dev/sda" 1700000000 [("5", ataSampleRow)] [] (.obj [])

/-- What the normalizer actually produces from `ataSampleRow`: the
`thresh` field is ignored (the code reads `attr.threshold`, absent
here, so 0), and `raw` is passed through as the raw object. -/
def ataSampleAttr : SmartAttribute :=
  { id := .num 5, name := .str "Reallocated_Sector_Ct", value := .num 90, worst := .num 90,
    threshold := .num 0, raw := .obj [("value", .num 3)], status := "Good" }

/-- NVMe sample document whose health reports `passed: true`. -/
def nvmeGoodHealthDoc : JsVal :=
  mkRawDoc "/dev/nvme0n1" 1700000000 (.obj [])
    (.obj [("nvme_smart_health_information_log", mkNvmeLog 0 45 100 10 5 100 10 0 0 0)])
    (.obj [("smart_status", .obj [("passed", .bool true)])]) (.obj []) (.obj [])

/-- NVMe sample document whose health reports `passed: false`
(health verdict Warning). -/
def nvmeBadHealthDoc : JsVal :=
  mkRawDoc "/dev/nvme0n1" 1700000000 (.obj [])
    (.obj [("nvme_smart_health_information_log", mkNvmeLog 0 45 100 10 5 100 10 0 0 0)])
    (.obj [("smart_status", .obj [("passed", .bool false)])]) (.obj []) (.obj [])

/-- Project a normalizer result to its record, when it neither threw
nor returned null. -/
def recordOf (e : Except Unit (Option DeviceHealthRecord)) : Option DeviceHealthRecord :=
  match e with
  | .ok (some r) => some r
  | _ => none

/-- The attribute identifiers of a record, in order. -/
def attrIds (r : DeviceHealthRecord) : List JsVal :=
  r.smartAttributes.map (fun a => a.id)

/-- The attribute status verdicts of a record, in order. -/
def attrStatuses (r : DeviceHealthRecord) : List String :=
  r.smartAttributes.map (fun a => a.status)

/-- The self-test entry types of a record, in order. -/
def testTypes (r : DeviceHealthRecord) : List JsVal :=
  r.selftestLog.map (fun t => t.testType)

/-- The self-test entry statuses of a record, in order. -/
def testStatuses (r : DeviceHealthRecord) : List JsVal :=
  r.selftestLog.map (fun t => t.status)

/-! ## Shared helper lemmas -/

/-- `a || b` on two string values is always a string: the left string
when it is nonempty, the right one otherwise. -/
theorem jsOr_str_str (s t : String) : jsOr (.str s) (.str t) = .str (if s = "" then t else s) := by
  by_cases h : s = "" <;> simp [jsOr, JsVal.truthy, h, bne]

/-- Objects are truthy. -/
theorem truthy_obj (fields : List (String × JsVal)) : (JsVal.obj fields).truthy = true := rfl

/-- `undefined` is falsy. -/
theorem truthy_undefined : JsVal.undefined.truthy = false := rfl

/-- Objects have `typeof === 'object'`. -/
theorem isObjectType_obj (fields : List (String × JsVal)) :
    isObjectType (.obj fields) = true := rfl

/-- Property access walks the field list. -/
theorem get_cons (k' : String) (v : JsVal) (rest : List (String × JsVal)) (k : String) :
    (JsVal.obj ((k', v) :: rest)).get k = if k' = k then v else (JsVal.obj rest).get k := by
  by_cases h : k' = k <;> simp [JsVal.get, lookupField, h]

/-- Property access on the empty object is `undefined`. -/
theorem get_nil (k : String) : (JsVal.obj []).get k = .undefined := rfl

/-- Property access on `undefined` (as guarded by `?.`) is `undefined`. -/
theorem get_undefined (k : String) : JsVal.undefined.get k = .undefined := rfl

/-- Evaluation of the normalizer on a generic-shaped document (no NVMe
health log in the attribute object): the attribute list is the filtered
`Object.entries` mapping plus the synthetic `smart_status` tail, and
the self-test log is the filtered `Object.entries` mapping of the
self-test object. -/
theorem transform_generic (dev : String) (ts : Int)
    (attrFields selftestFields : List (String × JsVal)) (sh : JsVal)
    (hnv : ((JsVal.obj attrFields).get "nvme_smart_health_information_log").truthy = false) :
    (recordOf (transformDeviceData (mkGenericDoc dev ts attrFields selftestFields sh))).map
        DeviceHealthRecord.smartAttributes
      = some (((attrFields.filter fun kv => attrEntryKept kv.2).map fun kv => genericAttr kv.1 kv.2)
          ++ smartStatusExtra (jsOr sh (.obj []))) ∧
    (recordOf (transformDeviceData (mkGenericDoc dev ts attrFields selftestFields sh))).map
        DeviceHealthRecord.selftestLog
      = some ((selftestFields.filter fun kv => testEntryKept kv.2).map
          fun kv => genericTest (lastCheckOf (mkGenericDoc dev ts attrFields selftestFields sh)) kv.1 kv.2) := by
  have ha : smartAttrsOf (mkGenericDoc dev ts attrFields selftestFields sh) = .obj attrFields := rfl
  have hdt : deviceTypeOf (mkGenericDoc dev ts attrFields selftestFields sh)
      = pure (JsVal.str "SATA/SCSI") := by
    unfold deviceTypeOf
    rw [ha, hnv]
    rfl
  have hsa : smartAttributesOf (mkGenericDoc dev ts attrFields selftestFields sh)
      = pure (((attrFields.filter fun kv => attrEntryKept kv.2).map fun kv => genericAttr kv.1 kv.2)
          ++ smartStatusExtra (jsOr sh (.obj []))) := by
    unfold smartAttributesOf
    rw [ha, hnv]
    rfl
  have hst : selftestLogOf (mkGenericDoc dev ts attrFields selftestFields sh)
      = (selftestFields.filter fun kv => testEntryKept kv.2).map
          fun kv => genericTest (lastCheckOf (mkGenericDoc dev ts attrFields selftestFields sh)) kv.1 kv.2 := by
    unfold selftestLogOf
    rw [ha, hnv]
    rfl
  have hid : idNameOf (mkGenericDoc dev ts attrFields selftestFields sh)
      = .ok (String.mk (removeFirstOcc "/dev/".toList
          (String.toList (if dev = "" then "unknown" else dev)))) := by
    unfold idNameOf
    rw [show (mkGenericDoc dev ts attrFields selftestFields sh).get "device" = .str dev from rfl,
      jsOr_str_str]
    rfl
  unfold transformDeviceData
  rw [hdt, hsa, hid, hst]
  exact ⟨rfl, rfl⟩

/-- A failure count of zero is the same as every device probing
successfully. -/
theorem filter_not_length_zero (l : List String) (p : String → Bool) :
    ((l.filter fun d => !p d).length = 0) ↔ l.all p := by
  induction l with
  | nil => simp
  | cons a l ih =>
    by_cases h : p a <;> simp [h, ih]

/-- Every device passed to `create_index` contributes its
`<basename>_smart.json` name to `json_files`, in every format. -/
theorem create_index_mem (fmt : JsonFormat) (now : Int) (nowIso : String)
    (devices : List String) (d : String) (hd : d ∈ devices) :
    jsonFileName d ∈ (create_index fmt now nowIso devices).json_files := by
  cases devices with
  | nil => cases hd
  | cons a as => cases fmt <;> exact List.mem_map_of_mem _ hd

/-! ## Claim C7 -/

/-- C7: the round-trip `total_devices = json_files.length` with one
`<basename>_smart.json` entry per input device, in input order, holds
for every nonempty device list in every format and for every list in
the basic format — but the jq paths evaluate to `json_files = [""]`
with `total_devices = 0` on the empty device list, breaking the
claimed equality there: the code, not the claim, is at fault (the
basic path of the same script emits the empty array). -/
theorem c7_index_roundtrip :
    (∀ (fmt : JsonFormat) (now : Int) (nowIso : String) (devices : List String),
      devices ≠ [] →
      (create_index fmt now nowIso devices).total_devices
          = (create_index fmt now nowIso devices).json_files.length ∧
      (create_index fmt now nowIso devices).json_files
          = devices.map (fun d => basename d ++ "_smart.json")) ∧
    (∀ (now : Int) (nowIso : String) (devices : List String),
      (create_index .basic now nowIso devices).total_devices
          = (create_index .basic now nowIso devices).json_files.length ∧
      (create_index .basic now nowIso devices).json_files
          = devices.map (fun d => basename d ++ "_smart.json")) ∧
    (∀ (now : Int) (nowIso : String),
      (create_index .pretty now nowIso []).json_files = [""] ∧
      (create_index .compact now nowIso []).json_files = [""] ∧
      (create_index .pretty now nowIso []).total_devices
        ≠ (create_index .pretty now nowIso []).json_files.length) := by
  refine ⟨?_, ?_, ?_⟩
  · intro fmt now nowIso devices hne
    cases devices with
    | nil => exact absurd rfl hne
    | cons a as => cases fmt <;> exact ⟨by simp [create_index, jsonFileName], rfl⟩
  · intro now nowIso devices
    exact ⟨by simp [create_index, jsonFileName], rfl⟩
  · intro now nowIso
    exact ⟨rfl, rfl, by simp [create_index]⟩

/-- C7 witness: a one-device list in the jq pretty format satisfies the
round-trip with the expected file name. -/
theorem c7_witness :
    (create_index .pretty 100 "iso" ["/dev/sda"]).total_devices
        = (create_index .pretty 100 "iso" ["/dev/sda"]).json_files.length ∧
    (create_index .pretty 100 "iso" ["/dev/sda"]).json_files = ["sda_smart.json"] :=
  ⟨(c7_index_roundtrip.1 .pretty 100 "iso" ["/dev/sda"] (by decide)).1,
   ((c7_index_roundtrip.1 .pretty 100 "iso" ["/dev/sda"] (by decide)).2).trans rfl⟩

/-! ## Claim C8 -/

/-- C8: the process exit code is 1 when `smartctl` is missing; on a
probing run it is the per-device failure count (bash wraps return
values modulo 256, so the identification needs the practical bound of
fewer than 256 failures), and it is zero exactly when every classified
device probed successfully. -/
theorem c8_exit_code :
    (∀ cands isB lsblk excl fmt dryRun acc now nowIso,
      (smart_monitor_main false cands isB lsblk excl fmt dryRun acc now nowIso).1 = 1) ∧
    (∀ cands isB lsblk excl fmt acc now nowIso,
      (((classifyDevices cands isB lsblk excl).filter fun d => !acc d).length < 256) →
      (smart_monitor_main true cands isB lsblk excl fmt false acc now nowIso).1
          = ((classifyDevices cands isB lsblk excl).filter fun d => !acc d).length ∧
      ((smart_monitor_main true cands isB lsblk excl fmt false acc now nowIso).1 = 0 ↔
        (classifyDevices cands isB lsblk excl).all acc)) := by
  constructor
  · intro cands isB lsblk excl fmt dryRun acc now nowIso
    rfl
  · intro cands isB lsblk excl fmt acc now nowIso h
    have hmod : (smart_monitor_main true cands isB lsblk excl fmt false acc now nowIso).1
        = ((classifyDevices cands isB lsblk excl).filter fun d => !acc d).length := by
      simp [smart_monitor_main, check_dependencies, scan_devices, process_device,
        Nat.mod_eq_of_lt h]
    refine ⟨hmod, ?_⟩
    rw [hmod]
    exact filter_not_length_zero _ _

/-- C8 witness: two devices, one inaccessible at probe time, exit code
equals the single failure; and desk-check that the code is 1 with
`smartctl` absent. -/
theorem c8_witness :
    (smart_monitor_main true ["/dev/sda", "/dev/sdb"] (fun _ => true) (fun _ => .unavailable)
        [] .pretty false (fun d => d == "/dev/sda") 100 "iso").1
      = ((classifyDevices ["/dev/sda", "/dev/sdb"] (fun _ => true) (fun _ => .unavailable)
            []).filter fun d => !(d == "/dev/sda")).length ∧
    ((classifyDevices ["/dev/sda", "/dev/sdb"] (fun _ => true) (fun _ => .unavailable)
        []).filter fun d => !(d == "/dev/sda")).length = 1 ∧
    (smart_monitor_main false ["/dev/sda"] (fun _ => true) (fun _ => .unavailable)
        [] .pretty false (fun _ => true) 100 "iso").1 = 1 :=
  ⟨(c8_exit_code.2 ["/dev/sda", "/dev/sdb"] (fun _ => true) (fun _ => .unavailable)
      [] .pretty (fun d => d == "/dev/sda") 100 "iso" (by decide)).1,
   by decide,
   c8_exit_code.1 ["/dev/sda"] (fun _ => true) (fun _ => .unavailable) [] .pretty false
     (fun _ => true) 100 "iso"⟩

/-! ## Claim C10 -/

/-- C10: on a non-dry run the written index does not depend on which
probes succeeded, and every classified, non-excluded device contributes
its `<basename>_smart.json` entry to `json_files` — in particular a
device whose probe failed is still listed. -/
theorem c10_index_lists_failed_devices :
    (∀ cands isB lsblk excl fmt now nowIso p q,
      (scan_devices cands isB lsblk excl fmt false p now nowIso).index
        = (scan_devices cands isB lsblk excl fmt false q now nowIso).index) ∧
    (∀ cands isB lsblk excl fmt now nowIso p d,
      d ∈ classifyDevices cands isB lsblk excl →
      jsonFileName d ∈
        (scan_devices cands isB lsblk excl fmt false p now nowIso).index.json_files) := by
  constructor
  · intro cands isB lsblk excl fmt now nowIso p q
    rfl
  · intro cands isB lsblk excl fmt now nowIso p d hd
    exact create_index_mem fmt now nowIso _ d hd

/-- C10 witness: `/dev/sdb` fails its probe yet `sdb_smart.json` is
listed in the index of that run. -/
theorem c10_witness :
    jsonFileName "/dev/sdb" ∈
      (scan_devices ["/dev/sda", "/dev/sdb"] (fun _ => true) (fun _ => .unavailable) []
        .pretty false (fun d => d == "/dev/sda") 100 "iso").index.json_files :=
  c10_index_lists_failed_devices.2 ["/dev/sda", "/dev/sdb"] (fun _ => true)
    (fun _ => .unavailable) [] .pretty 100 "iso" (fun d => d == "/dev/sda") "/dev/sdb"
    (by decide)

/-! ## Claim C2 -/

/-- C2 counterexample: `nvme0n1` matches the NVMe-namespace pattern,
yet classification excludes it when `lsblk` reports type `part` — so
"for every base name matching `^nvme[0-9]+n[0-9]+$` classification
includes it" is false as stated. -/
theorem c2_counterexample :
    matchNvmeNs "nvme0n1" = true ∧
    is_disk_device "/dev/nvme0n1" true (.available "part") = false :=
  ⟨rfl, rfl⟩

/-- C2 amended: a base name matching `^[a-z]+[0-9]+$` and not
NVMe-namespace-shaped is always excluded as a partition; a
NVMe-namespace-shaped name is included by the heuristic and kept
whenever the metadata source is absent or reports `disk` or an empty
type; and the spec's three-device scenario classifies to
`["/dev/sda", "/dev/nvme0n1"]`. -/
theorem c2_amended :
    (∀ device isB lsblk, matchLettersDigits (basename device) = true →
      matchNvmeNs (basename device) = false →
      is_disk_device device isB lsblk = false) ∧
    (∀ device lsblk, matchNvmeNs (basename device) = true →
      (lsblk = LsblkInfo.unavailable ∨ lsblk = .available "disk" ∨ lsblk = .available "") →
      is_disk_device device true lsblk = true) ∧
    classifyDevices ["/dev/sda", "/dev/sda1", "/dev/nvme0n1"] (fun _ => true)
      (fun _ => .unavailable) [] = ["/dev/sda", "/dev/nvme0n1"] := by
  refine ⟨?_, ?_, by decide⟩
  · intro device isB lsblk h1 h2
    cases isB <;> simp [is_disk_device, h1, h2]
  · intro device lsblk h1 h2
    rcases h2 with h2 | h2 | h2 <;> subst h2 <;> simp [is_disk_device, h1]

/-- C2 witness: the amended statement instantiated: `sda1` excluded,
`nvme0n1` included with `lsblk` unavailable. -/
theorem c2_witness :
    is_disk_device "/dev/sda1" true .unavailable = false ∧
    is_disk_device "/dev/nvme0n1" true .unavailable = true :=
  ⟨c2_amended.1 "/dev/sda1" true .unavailable rfl rfl,
   c2_amended.2.1 "/dev/nvme0n1" .unavailable rfl (Or.inl rfl)⟩

/-! ## Claim C4 -/

/-- C4 counterexample: the metadata type does not take precedence over
the naming heuristic, and unknown types do not fall back to it: `sda1`
is excluded even when `lsblk` says `disk` (the regex stage returns
first), and `sda` with the unknown type `loop` is excluded although the
heuristic would include it. -/
theorem c4_counterexample :
    is_disk_device "/dev/sda1" true (.available "disk") = false ∧
    heuristicIncludes "/dev/sda" = true ∧
    is_disk_device "/dev/sda" true (.available "loop") = false :=
  ⟨rfl, rfl, rfl⟩

/-- C4 amended: the naming heuristic runs first and its partition
exclusion is final; for devices it passes, `lsblk` type `part`
excludes, `disk` or an empty (undetermined) type includes, and any
other type excludes rather than falling back to the heuristic. -/
theorem c4_amended :
    (∀ device isB lsblk, heuristicIncludes device = false →
      is_disk_device device isB lsblk = false) ∧
    (∀ device isB, is_disk_device device isB (.available "part") = false) ∧
    (∀ device, heuristicIncludes device = true →
      is_disk_device device true (.available "disk") = true ∧
      is_disk_device device true (.available "") = true) ∧
    (∀ device ty, heuristicIncludes device = true →
      ty ≠ "part" → ty ≠ "disk" → ty ≠ "" →
      is_disk_device device true (.available ty) = false) := by
  refine ⟨?_, ?_, ?_, ?_⟩
  · intro device isB lsblk h
    simp only [heuristicIncludes, Bool.not_eq_false'] at h
    cases isB <;> simp [is_disk_device, h]
  · intro device isB
    cases isB <;> simp [is_disk_device]
  · intro device h
    simp only [heuristicIncludes, Bool.not_eq_true'] at h
    exact ⟨by simp [is_disk_device, h], by simp [is_disk_device, h]⟩
  · intro device ty h hp hd he
    simp only [heuristicIncludes, Bool.not_eq_true'] at h
    simp [is_disk_device, h, hp, hd, he]

/-- C4 witness: the amended statement instantiated on `sda1` (heuristic
exclusion final even against `disk`), on `sda` with `part`, `disk` and
the unknown type `loop`. -/
theorem c4_witness :
    is_disk_device "/dev/sda1" true (.available "disk") = false ∧
    is_disk_device "/dev/sda" true (.available "part") = false ∧
    is_disk_device "/dev/sda" true (.available "disk") = true ∧
    is_disk_device "/dev/sda" true (.available "loop") = false :=
  ⟨c4_amended.1 "/dev/sda1" true (.available "disk") rfl,
   c4_amended.2.1 "/dev/sda" true,
   (c4_amended.2.2.1 "/dev/sda" rfl).1,
   c4_amended.2.2.2 "/dev/sda" "loop" rfl (by decide) (by decide) (by decide)⟩

/-! ## Claim C1 -/

/-- C1 counterexample: `transformDeviceData` returns null (not a
placeholder record) for a missing document and for one without a
`smart_data` member, and throws (rather than degrading) on a document
whose NVMe health log lacks the expected numeric fields — refuting
"always returns a DeviceHealthRecord ... rather than returning null or
raising an exception". -/
theorem c1_counterexample :
    transformDeviceData .null = .ok none ∧
    transformDeviceData docMissingSmartData = .ok none ∧
    transformDeviceData (mkNvmeBadDoc "/dev/nvme0n1" 1700000000) = .error () :=
  ⟨rfl, rfl, rfl⟩

/-- C1 amended: a falsy document or one whose `smart_data` member is
falsy makes the normalizer return null (the callers drop nulls with
`filter(Boolean)`); a document of the collector shape whose
`smart_data` is present but empty yields a record with the "Unknown"
placeholders and empty attribute/self-test sequences; and a document
whose NVMe health log is present but lacks its numeric fields makes
the normalizer throw. -/
theorem c1_amended :
    (∀ d : JsVal, d.truthy = false → transformDeviceData d = .ok none) ∧
    (∀ d : JsVal, (d.get "smart_data").truthy = false → transformDeviceData d = .ok none) ∧
    (∀ (dev : String) (ts : Int),
      (recordOf (transformDeviceData (mkEmptyDoc dev ts))).map DeviceHealthRecord.model
          = some (.str "Unknown Model") ∧
      (recordOf (transformDeviceData (mkEmptyDoc dev ts))).map DeviceHealthRecord.serial
          = some (.str "Unknown Serial") ∧
      (recordOf (transformDeviceData (mkEmptyDoc dev ts))).map DeviceHealthRecord.firmware
          = some (.str "Unknown Firmware") ∧
      (recordOf (transformDeviceData (mkEmptyDoc dev ts))).map DeviceHealthRecord.size
          = some "Unknown Size" ∧
      (recordOf (transformDeviceData (mkEmptyDoc dev ts))).map DeviceHealthRecord.health
          = some "Unknown" ∧
      (recordOf (transformDeviceData (mkEmptyDoc dev ts))).map DeviceHealthRecord.smartAttributes
          = some [] ∧
      (recordOf (transformDeviceData (mkEmptyDoc dev ts))).map DeviceHealthRecord.selftestLog
          = some []) ∧
    (∀ (dev : String) (ts : Int), transformDeviceData (mkNvmeBadDoc dev ts) = .error ()) := by
  refine ⟨?_, ?_, ?_, fun dev ts => rfl⟩
  · intro d h
    simp [transformDeviceData, h]
  · intro d h
    simp [transformDeviceData, h]
  · intro dev ts
    have hid : idNameOf (mkEmptyDoc dev ts)
        = .ok (String.mk (removeFirstOcc "/dev/".toList
            (String.toList (if dev = "" then "unknown" else dev)))) := by
      unfold idNameOf
      rw [show (mkEmptyDoc dev ts).get "device" = .str dev from rfl, jsOr_str_str]
      rfl
    unfold transformDeviceData
    rw [hid]
    exact ⟨rfl, rfl, rfl, rfl, rfl, rfl, rfl⟩

/-- C1 witness: the amended statement instantiated: null for the JSON
null document and for one lacking `smart_data`, placeholders for an
empty `smart_data`, a throw for an empty NVMe log. -/
theorem c1_witness :
    transformDeviceData .null = .ok none ∧
    transformDeviceData docMissingSmartData = .ok none ∧
    (recordOf (transformDeviceData (mkEmptyDoc "/dev/sdz" 42))).map DeviceHealthRecord.health
        = some "Unknown" ∧
    transformDeviceData (mkNvmeBadDoc "/dev/nvme9n1" 42) = .error () :=
  ⟨c1_amended.1 .null rfl,
   c1_amended.2.1 docMissingSmartData rfl,
   (c1_amended.2.2.1 "/dev/sdz" 42).2.2.2.2.1,
   c1_amended.2.2.2 "/dev/nvme9n1" 42⟩

/-! ## Claim C5 -/

/-- C5 counterexample: the spec's sample ATA row normalizes with
`threshold = 0` (the code reads `attr.threshold`, never the row's
`thresh: 10`) and with `raw` equal to the raw *object*, not the string
"3" — the status is "Good" only because 90 > 0, not because 90 > 10. -/
theorem c5_counterexample :
    (recordOf (transformDeviceData ataSampleDoc)).map DeviceHealthRecord.smartAttributes
        = some [ataSampleAttr] ∧
    ataSampleAttr.status = "Good" ∧
    ataSampleAttr.threshold = .num 0 ∧
    ataSampleAttr.raw = .obj [("value", .num 3)] ∧
    JsVal.num 0 ≠ JsVal.num 10 ∧
    JsVal.obj [("value", .num 3)] ≠ JsVal.str "3" := by
  refine ⟨rfl, rfl, rfl, rfl, ?_, ?_⟩ <;> simp

/-- C5 amended: a generic-branch row is mapped through the field reads
`id`/`name`/`value`/`worst`/`threshold`/`raw` with `|| 0` (resp.
`|| '0'`) defaults; a `thresh` field is ignored, so the threshold
defaults to 0, `raw` is passed through unchanged, and the status is
Good iff `value || 0` exceeds that defaulted threshold. -/
theorem c5_amended (dev : String) (ts : Int) (key : String) (i nm v w th rv : JsVal)
    (h1 : i.truthy = true) (h2 : key ≠ "nvme_smart_health_information_log") :
    (recordOf (transformDeviceData (mkGenericDoc dev ts
        [(key, .obj [("id", i), ("name", nm), ("value", v), ("worst", w),
                     ("thresh", th), ("raw", rv)])] [] (.obj [])))).map
        DeviceHealthRecord.smartAttributes
      = some [{ id := i, name := jsOr nm (.str key), value := jsOr v (.num 0),
                worst := jsOr w (.num 0), threshold := .num 0, raw := jsOr rv (.str "0"),
                status := if jsGt (jsOr v (.num 0)) (.num 0) then "Good" else "Warning" }] := by
  have hnv : ((JsVal.obj [(key, .obj [("id", i), ("name", nm), ("value", v), ("worst", w),
      ("thresh", th), ("raw", rv)])]).get "nvme_smart_health_information_log").truthy = false := by
    simp [get_cons, get_nil, h2, truthy_undefined]
  rw [(transform_generic dev ts _ [] (.obj []) hnv).1]
  simp [List.filter, attrEntryKept, genericAttr, get_cons, get_nil, get_undefined, truthy_obj,
    truthy_undefined, isObjectType_obj, h1, smartStatusExtra, isDefined, jsOr]

/-- C5 witness: the amended statement instantiated on the spec's sample
row, giving exactly the attribute of the counterexample. -/
theorem c5_witness :
    (recordOf (transformDeviceData (mkGenericDoc "/dev/sda" 1700000000
        [("5", .obj [("id", .num 5), ("name", .str "Reallocated_Sector_Ct"),
                     ("value", .num 90), ("worst", .num 90), ("thresh", .num 10),
                     ("raw", .obj [("value", .num 3)])])] [] (.obj [])))).map
        DeviceHealthRecord.smartAttributes
      = some [ataSampleAttr] :=
  (c5_amended "/dev/sda" 1700000000 "5" (.num 5) (.str "Reallocated_Sector_Ct")
      (.num 90) (.num 90) (.num 10) (.obj [("value", .num 3)]) rfl (by decide)).trans rfl

/-! ## Claim C9 -/

/-- C9: in the generic (non-NVMe) branch, the emitted attribute and
self-test sequences are order-preserving images of the source objects'
entry lists: each is the map of a sublist (the filtered entries) of the
source fields, never re-sorted; the only addition is the synthetic
`smart_status` tail appended after the source-derived attributes. -/
theorem c9_order_preserved (dev : String) (ts : Int)
    (attrFields selftestFields : List (String × JsVal)) (sh : JsVal)
    (hnv : ((JsVal.obj attrFields).get "nvme_smart_health_information_log").truthy = false) :
    (recordOf (transformDeviceData (mkGenericDoc dev ts attrFields selftestFields sh))).map
        DeviceHealthRecord.smartAttributes
      = some (((attrFields.filter fun kv => attrEntryKept kv.2).map fun kv => genericAttr kv.1 kv.2)
          ++ smartStatusExtra (jsOr sh (.obj []))) ∧
    (recordOf (transformDeviceData (mkGenericDoc dev ts attrFields selftestFields sh))).map
        DeviceHealthRecord.selftestLog
      = some ((selftestFields.filter fun kv => testEntryKept kv.2).map
          fun kv => genericTest (lastCheckOf (mkGenericDoc dev ts attrFields selftestFields sh)) kv.1 kv.2) ∧
    List.Sublist (attrFields.filter fun kv => attrEntryKept kv.2) attrFields ∧
    List.Sublist (selftestFields.filter fun kv => testEntryKept kv.2) selftestFields :=
  ⟨(transform_generic dev ts attrFields selftestFields sh hnv).1,
   (transform_generic dev ts attrFields selftestFields sh hnv).2,
   List.filter_sublist attrFields,
   List.filter_sublist selftestFields⟩

/-- C9 witness: a three-entry attribute object (middle entry filtered
out for lacking an `id`) and a two-entry self-test object map in source
order. -/
theorem c9_witness :
    (recordOf (transformDeviceData (mkGenericDoc "/dev/sda" 1700000000
        [("first", .obj [("id", .num 1)]), ("skipped", .str "not-an-attribute"),
         ("second", .obj [("id", .num 2)])]
        [("0", .obj [("status", .str "ok")]), ("1", .obj [("status", .str "aborted")])]
        (.obj [])))).map DeviceHealthRecord.smartAttributes
      = some [genericAttr "first" (.obj [("id", .num 1)]),
              genericAttr "second" (.obj [("id", .num 2)])] ∧
    (recordOf (transformDeviceData (mkGenericDoc "/dev/sda" 1700000000
        [("first", .obj [("id", .num 1)]), ("skipped", .str "not-an-attribute"),
         ("second", .obj [("id", .num 2)])]
        [("0", .obj [("status", .str "ok")]), ("1", .obj [("status", .str "aborted")])]
        (.obj [])))).map DeviceHealthRecord.selftestLog
      = some [genericTest "epoch-ms:1700000000000" "0" (.obj [("status", .str "ok")]),
              genericTest "epoch-ms:1700000000000" "1" (.obj [("status", .str "aborted")])] :=
  ⟨((c9_order_preserved "/dev/sda" 1700000000
      [("first", .obj [("id", .num 1)]), ("skipped", .str "not-an-attribute"),
       ("second", .obj [("id", .num 2)])]
      [("0", .obj [("status", .str "ok")]), ("1", .obj [("status", .str "aborted")])]
      (.obj []) rfl).1).trans rfl,
   ((c9_order_preserved "/dev/sda" 1700000000
      [("first", .obj [("id", .num 1)]), ("skipped", .str "not-an-attribute"),
       ("second", .obj [("id", .num 2)])]
      [("0", .obj [("status", .str "ok")]), ("1", .obj [("status", .str "aborted")])]
      (.obj []) rfl).2.1).trans rfl⟩

/-! ## Claim C3 -/

/-- C3 counterexample: a raw document whose smart_attributes contain an
NVMe health-information-log *object* does not always yield 9 synthetic
attributes — when the log lacks the expected numeric fields the
normalizer throws instead of emitting anything. -/
theorem c3_counterexample :
    transformDeviceData (mkNvmeBadDoc "/dev/nvme1n1" 123) = .error () :=
  rfl

/-- C3 amended: for every raw document whose NVMe health log carries
the expected numeric fields, the normalizer emits exactly the 9
synthetic attributes in the fixed order, with the documented threshold
rules (critical warning zero-is-good, temperature below 70, available
spare above its reported threshold, percentage used below 80, power-on
hours and power cycles always Good, zero-is-good for media errors,
error-log entries and unsafe shutdowns); the spec's sample document
yields status Good for all 9. -/
theorem c3_amended :
    (∀ (dev : String) (ts cw temp spare spareTh pu poh pc me ne us : Int),
      ∃ r, transformDeviceData (mkNvmeDoc dev ts
          (mkNvmeLog cw temp spare spareTh pu poh pc me ne us)) = .ok (some r) ∧
        attrIds r = [.str "critical_warning", .str "temperature", .str "available_spare",
          .str "percentage_used", .str "power_on_hours", .str "power_cycles",
          .str "media_errors", .str "num_err_log_entries", .str "unsafe_shutdowns"] ∧
        attrStatuses r = [if cw = 0 then "Good" else "Warning",
          if temp < 70 then "Good" else "Warning",
          if spareTh < spare then "Good" else "Warning",
          if pu < 80 then "Good" else "Warning",
          "Good", "Good",
          if me = 0 then "Good" else "Warning",
          if ne = 0 then "Good" else "Warning",
          if us = 0 then "Good" else "Warning"]) ∧
    (∃ r, transformDeviceData nvmeSampleDoc = .ok (some r) ∧
      attrStatuses r = List.replicate 9 "Good") := by
  refine ⟨?_, ⟨_, rfl, rfl⟩⟩
  intro dev ts cw temp spare spareTh pu poh pc me ne us
  have hid : idNameOf (mkNvmeDoc dev ts (mkNvmeLog cw temp spare spareTh pu poh pc me ne us))
      = .ok (String.mk (removeFirstOcc "/dev/".toList
          (String.toList (if dev = "" then "unknown" else dev)))) := by
    unfold idNameOf
    rw [show (mkNvmeDoc dev ts (mkNvmeLog cw temp spare spareTh pu poh pc me ne us)).get "device"
          = .str dev from rfl, jsOr_str_str]
    rfl
  unfold transformDeviceData
  rw [hid]
  refine ⟨_, rfl, rfl, ?_⟩
  simp [attrStatuses, nvmeAttributes, mkNvmeDoc, mkRawDoc, smartAttrsOf, smartDataOf, jsOr,
    truthy_obj, mkNvmeLog, get_cons, get_nil, strictEqNum, jsLtN, jsLt, jsGt, JsVal.toNumber]

/-! ## Claim C6 -/

/-- C6 counterexample: the synthetic NVMe self-test status is the
constant text "Completed without error" whether the record's health
verdict is Good or Warning — it is not derived from the verdict; and a
document with an empty NVMe health log throws instead of producing the
entry. -/
theorem c6_counterexample :
    (recordOf (transformDeviceData nvmeGoodHealthDoc)).map DeviceHealthRecord.health
        = some "Good" ∧
    (recordOf (transformDeviceData nvmeBadHealthDoc)).map DeviceHealthRecord.health
        = some "Warning" ∧
    (recordOf (transformDeviceData nvmeGoodHealthDoc)).map testStatuses
        = some [.str "Completed without error"] ∧
    (recordOf (transformDeviceData nvmeBadHealthDoc)).map testStatuses
        = some [.str "Completed without error"] ∧
    transformDeviceData (mkNvmeBadDoc "/dev/nvme2n1" 7) = .error () :=
  ⟨rfl, rfl, rfl, rfl, rfl⟩

/-- C6 amended: for every raw document whose NVMe health log carries
the expected numeric fields, the self-test log is exactly one entry of
type "NVMe Health Check" whose status is the constant string
"Completed without error", independent of the health object (it is not
derived from the health verdict); a document with no NVMe log and no
self-test entries yields an empty self-test log. -/
theorem c6_amended :
    (∀ (dev : String) (ts cw temp spare spareTh pu poh pc me ne us : Int) (sh : JsVal),
      ∃ r, transformDeviceData (mkRawDoc dev ts (.obj [])
          (.obj [("nvme_smart_health_information_log",
            mkNvmeLog cw temp spare spareTh pu poh pc me ne us)])
          sh (.obj []) (.obj [])) = .ok (some r) ∧
        r.selftestLog.length = 1 ∧
        testTypes r = [.str "NVMe Health Check"] ∧
        testStatuses r = [.str "Completed without error"]) ∧
    (∀ (dev : String) (ts : Int),
      ∃ r, transformDeviceData (mkEmptyDoc dev ts) = .ok (some r) ∧ r.selftestLog = []) := by
  constructor
  · intro dev ts cw temp spare spareTh pu poh pc me ne us sh
    have hid : idNameOf (mkRawDoc dev ts (.obj [])
        (.obj [("nvme_smart_health_information_log",
          mkNvmeLog cw temp spare spareTh pu poh pc me ne us)])
        sh (.obj []) (.obj []))
        = .ok (String.mk (removeFirstOcc "/dev/".toList
            (String.toList (if dev = "" then "unknown" else dev)))) := by
      unfold idNameOf
      rw [show (mkRawDoc dev ts (.obj [])
            (.obj [("nvme_smart_health_information_log",
              mkNvmeLog cw temp spare spareTh pu poh pc me ne us)])
            sh (.obj []) (.obj [])).get "device" = .str dev from rfl, jsOr_str_str]
      rfl
    unfold transformDeviceData
    rw [hid]
    exact ⟨_, rfl, rfl, rfl, rfl⟩
  · intro dev ts
    have hid : idNameOf (mkEmptyDoc dev ts)
        = .ok (String.mk (removeFirstOcc "/dev/".toList
            (String.toList (if dev = "" then "unknown" else dev)))) := by
      unfold idNameOf
      rw [show (mkEmptyDoc dev ts).get "device" = .str dev from rfl, jsOr_str_str]
      rfl
    unfold transformDeviceData
    rw [hid]
    exact ⟨_, rfl, rfl⟩

end NanoSmart
